import Mathlib

/-!
Shallow embedding of the maternity-ward CRUD service (`src/api.py`).

Modelling conventions:
* UUIDs and dates are represented abstractly as `Nat`; `float` columns carry
  an `Int` code (no arithmetic is ever performed on them by the operations
  modelled here).
* The database session is a `Store` of per-table lists; `session.exec(
  select(T).where(p)).first()` is `List.find? p`, `session.get(T, pk)` is a
  `find?` on the primary-key column, `session.add` followed by `commit` is an
  append (insert) or a primary-key keyed replacement (update), and
  `session.delete` removes the row with the given primary key.
* `raise HTTPException(status_code, detail)` is modelled by returning
  `Except.error` carrying the status code and detail string; a handler that
  returns normally yields `Except.ok` with the post-state and the returned
  record.  An `Except.error` result produces no new store, which captures
  that a raised exception aborts the request before any mutation.
* PATCH bodies (`XUpdate` models with all-`Optional` fields read through
  `model_dump(exclude_unset=True)`) are records of `Option` fields: `none`
  means the field was absent from the patch, `some v` that it was supplied
  with value `v`.  (Explicitly supplying JSON `null` for a non-nullable
  column is not modelled; it would be rejected by the store's NOT NULL
  constraint.)
* Python truthiness tests on patch fields are translated exactly:
  `if dados.email` is false for `None` and for the empty string, while
  `if dados.id_profissional` is false only for `None` (UUID objects are
  always truthy).
-/

/-- `class TipoParto(str, Enum)` from `src/api.py`. -/
inductive TipoParto where
  | NORMAL
  | CESARIA
deriving DecidableEq

/-- `class EstadoCivil(str, Enum)` from `src/api.py`. -/
inductive EstadoCivil where
  | SOLTEIRO
  | CASADO
  | DIVORCIADO
  | VIUVO
  | UNIAO_ESTAVEL
deriving DecidableEq

/-- `class GrupoSanguineo(str, Enum)` from `src/api.py`. -/
inductive GrupoSanguineo where
  | A_POSITIVO
  | A_NEGATIVO
  | B_POSITIVO
  | B_NEGATIVO
  | AB_POSITIVO
  | AB_NEGATIVO
  | O_POSITIVO
  | O_NEGATIVO
deriving DecidableEq

/-- `class SexoBebe(str, Enum)` from `src/api.py`. -/
inductive SexoBebe where
  | MASCULINO
  | FEMININO
deriving DecidableEq

/-- Table `Gestante` (pregnant person). -/
structure Gestante where
  id_gestante : Nat
  nome : String
  data_nascimento : Nat
  bi : String
  telefone : String
  endereco : String
  grupo_sanguineo : GrupoSanguineo
  estado_civil : EstadoCivil
  data_registo : Nat
deriving DecidableEq

/-- Table `ProfissionalSaude` (health professional). -/
structure ProfissionalSaude where
  id_profissional : Nat
  nome : String
  especialidade : String
  telefone : String
  email : String
deriving DecidableEq

/-- Table `ConsultaPrenatal` (prenatal visit). -/
structure ConsultaPrenatal where
  id_consulta : Nat
  data_consulta : Nat
  idade_gestacional : Int
  peso : Int
  tensao_arterial : String
  observacoes : Option String
  id_gestante : Nat
  id_profissional : Nat
deriving DecidableEq

/-- Table `Exame` (exam). -/
structure Exame where
  id_exame : Nat
  tipo_exame : String
  data_exame : Nat
  resultado : Option String
  id_gestante : Nat
deriving DecidableEq

/-- Table `Parto` (birth). -/
structure Parto where
  id_parto : Nat
  data_parto : Nat
  tipo_parto : TipoParto
  complicacoes : Option String
  peso_bebe : Int
  sexo_bebe : SexoBebe
  id_gestante : Nat
  id_profissional : Nat
deriving DecidableEq

/-- PATCH body `GestanteUpdate`: only these five fields are exposed. -/
structure GestanteUpdate where
  nome : Option String := none
  telefone : Option String := none
  endereco : Option String := none
  grupo_sanguineo : Option GrupoSanguineo := none
  estado_civil : Option EstadoCivil := none
deriving DecidableEq

/-- PATCH body `ProfissionalSaudeUpdate`. -/
structure ProfissionalSaudeUpdate where
  nome : Option String := none
  especialidade : Option String := none
  telefone : Option String := none
  email : Option String := none
deriving DecidableEq

/-- PATCH body `ConsultaPrenatalUpdate`. -/
structure ConsultaPrenatalUpdate where
  data_consulta : Option Nat := none
  idade_gestacional : Option Int := none
  peso : Option Int := none
  tensao_arterial : Option String := none
  observacoes : Option String := none
  id_profissional : Option Nat := none
deriving DecidableEq

/-- PATCH body `ExameUpdate`. -/
structure ExameUpdate where
  tipo_exame : Option String := none
  data_exame : Option Nat := none
  resultado : Option String := none
deriving DecidableEq

/-- PATCH body `PartoUpdate`. -/
structure PartoUpdate where
  data_parto : Option Nat := none
  tipo_parto : Option TipoParto := none
  complicacoes : Option String := none
  peso_bebe : Option Int := none
  sexo_bebe : Option SexoBebe := none
  id_profissional : Option Nat := none
deriving DecidableEq

/-- `raise HTTPException(status_code=..., detail=...)`. -/
structure HTTPException where
  status_code : Nat
  detail : String
deriving DecidableEq

/-- The database: one list of rows per table. -/
structure Store where
  gestantes : List Gestante
  profissionais : List ProfissionalSaude
  consultas : List ConsultaPrenatal
  exames : List Exame
  partos : List Parto
deriving DecidableEq

def Store.empty : Store := ⟨[], [], [], [], []⟩

/-- `session.get(Gestante, gid)`: primary-key lookup. -/
def session_get_gestante (s : Store) (gid : Nat) : Option Gestante :=
  s.gestantes.find? (fun g => g.id_gestante == gid)

/-- `session.get(ProfissionalSaude, pid)`: primary-key lookup. -/
def session_get_profissional (s : Store) (pid : Nat) : Option ProfissionalSaude :=
  s.profissionais.find? (fun p => p.id_profissional == pid)

/-- `session.get(ConsultaPrenatal, cid)`: primary-key lookup. -/
def session_get_consulta (s : Store) (cid : Nat) : Option ConsultaPrenatal :=
  s.consultas.find? (fun c => c.id_consulta == cid)

/-- `session.get(Exame, eid)`: primary-key lookup. -/
def session_get_exame (s : Store) (eid : Nat) : Option Exame :=
  s.exames.find? (fun e => e.id_exame == eid)

/-- `session.get(Parto, pid)`: primary-key lookup. -/
def session_get_parto (s : Store) (pid : Nat) : Option Parto :=
  s.partos.find? (fun p => p.id_parto == pid)

/-- A handler outcome: an `HTTPException`, or the new store plus the value
the handler returns. -/
abbrev Handler (α : Type) := Except HTTPException (Store × α)

/-- `POST /gestantes` (`criar_gestante`): rejects a duplicate `bi` with
400 before inserting. -/
def criar_gestante (gestante : Gestante) (s : Store) : Handler Gestante :=
  match s.gestantes.find? (fun g => g.bi == gestante.bi) with
  | some _ => .error ⟨400, "BI já cadastrado para outra gestante"⟩
  | none => .ok ({ s with gestantes := s.gestantes ++ [gestante] }, gestante)

/-- `GET /gestantes/(gestante_id)` (`buscar_gestante`). -/
def buscar_gestante (gestante_id : Nat) (s : Store) : Except HTTPException Gestante :=
  match session_get_gestante s gestante_id with
  | none => .error ⟨404, "Gestante não encontrada"⟩
  | some gestante => .ok gestante

/-- The `for key, value in update_data.items(): setattr(gestante, key, value)`
loop of `atualizar_gestante`: overwrite exactly the supplied fields. -/
def applyGestanteUpdate (g : Gestante) (d : GestanteUpdate) : Gestante :=
  { g with
    nome := d.nome.getD g.nome
    telefone := d.telefone.getD g.telefone
    endereco := d.endereco.getD g.endereco
    grupo_sanguineo := d.grupo_sanguineo.getD g.grupo_sanguineo
    estado_civil := d.estado_civil.getD g.estado_civil }

/-- `PATCH /gestantes/(gestante_id)` (`atualizar_gestante`): 404 if absent,
otherwise merge the supplied fields and commit (row keyed by primary key). -/
def atualizar_gestante (gestante_id : Nat) (dados : GestanteUpdate) (s : Store) :
    Handler Gestante :=
  match session_get_gestante s gestante_id with
  | none => .error ⟨404, "Gestante não encontrada"⟩
  | some gestante =>
    let updated := applyGestanteUpdate gestante dados
    .ok ({ s with gestantes :=
            s.gestantes.map (fun g => if g.id_gestante == gestante_id then updated else g) },
         updated)

/-- `DELETE /gestantes/(gestante_id)` (`deletar_gestante`): 404 if absent,
400 if any `ConsultaPrenatal` references it, else remove the row. -/
def deletar_gestante (gestante_id : Nat) (s : Store) : Handler String :=
  match session_get_gestante s gestante_id with
  | none => .error ⟨404, "Gestante não encontrada"⟩
  | some _ =>
    match s.consultas.find? (fun c => c.id_gestante == gestante_id) with
    | some _ => .error ⟨400, "Não é possível excluir gestante com consultas registradas"⟩
    | none =>
      .ok ({ s with gestantes := s.gestantes.filter (fun g => !(g.id_gestante == gestante_id)) },
           "Gestante removida com sucesso")

/-- `POST /profissionais` (`criar_profissional`): rejects a duplicate
`email` with 400 before inserting. -/
def criar_profissional (profissional : ProfissionalSaude) (s : Store) :
    Handler ProfissionalSaude :=
  match s.profissionais.find? (fun p => p.email == profissional.email) with
  | some _ => .error ⟨400, "Email já cadastrado para outro profissional"⟩
  | none => .ok ({ s with profissionais := s.profissionais ++ [profissional] }, profissional)

/-- The field-merge loop of `atualizar_profissional`. -/
def applyProfissionalUpdate (p : ProfissionalSaude) (d : ProfissionalSaudeUpdate) :
    ProfissionalSaude :=
  { p with
    nome := d.nome.getD p.nome
    especialidade := d.especialidade.getD p.especialidade
    telefone := d.telefone.getD p.telefone
    email := d.email.getD p.email }

/-- The Python guard `if dados.email and dados.email != profissional.email`:
the patch email is truthy (present and non-empty) and differs from the
stored value. -/
def emailCheckNeeded (dados : ProfissionalSaudeUpdate) (current : ProfissionalSaude) : Bool :=
  match dados.email with
  | some e => e != "" && e != current.email
  | none => false

/-- `PATCH /profissionais/(profissional_id)` (`atualizar_profissional`):
404 if absent; when the email guard fires and another row already holds the
new email, 400; otherwise merge and commit.  `email` is declared
`Field(index=True, unique=True)`, and SQLite enforces unique indexes, so
when the merged row's email collides with a different row the
application-level guard missed, `session.commit()` raises `IntegrityError`:
the request fails with a generic HTTP 500 and the row is left unchanged —
modelled by the second guard below.  (The create handlers need no such
commit guard: their application-level check queries exactly the rows the
unique index would, before anything is inserted; and the other update
handlers cannot touch a unique column at all.) -/
def atualizar_profissional (profissional_id : Nat) (dados : ProfissionalSaudeUpdate)
    (s : Store) : Handler ProfissionalSaude :=
  match session_get_profissional s profissional_id with
  | none => .error ⟨404, "Profissional de saúde não encontrado"⟩
  | some profissional =>
    if emailCheckNeeded dados profissional &&
        (s.profissionais.find? (fun p => some p.email == dados.email)).isSome then
      .error ⟨400, "Email já cadastrado para outro profissional"⟩
    else
      let updated := applyProfissionalUpdate profissional dados
      if (s.profissionais.find? (fun p =>
          p.email == updated.email && !(p.id_profissional == profissional_id))).isSome then
        .error ⟨500, "IntegrityError: UNIQUE constraint failed: profissionalsaude.email"⟩
      else
        let rows := s.profissionais.map
          (fun p => if p.id_profissional == profissional_id then updated else p)
        .ok ({ s with profissionais := rows }, updated)

/-- `DELETE /profissionais/(profissional_id)` (`deletar_profissional`):
404 if absent, 400 if any `ConsultaPrenatal` or `Parto` references it,
else remove the row. -/
def deletar_profissional (profissional_id : Nat) (s : Store) : Handler String :=
  match session_get_profissional s profissional_id with
  | none => .error ⟨404, "Profissional de saúde não encontrado"⟩
  | some _ =>
    let consultas := s.consultas.find? (fun c => c.id_profissional == profissional_id)
    let partos := s.partos.find? (fun p => p.id_profissional == profissional_id)
    if consultas.isSome || partos.isSome then
      .error ⟨400, "Não é possível excluir profissional com consultas ou partos registrados"⟩
    else
      .ok ({ s with profissionais :=
              s.profissionais.filter (fun p => !(p.id_profissional == profissional_id)) },
           "Profissional de saúde removido com sucesso")

/-- `POST /consultas` (`criar_consulta`): 404 when the referenced gestante
or profissional does not exist; both checks precede the insert. -/
def criar_consulta (consulta : ConsultaPrenatal) (s : Store) : Handler ConsultaPrenatal :=
  match session_get_gestante s consulta.id_gestante with
  | none => .error ⟨404, "Gestante não encontrada"⟩
  | some _ =>
    match session_get_profissional s consulta.id_profissional with
    | none => .error ⟨404, "Profissional de saúde não encontrado"⟩
    | some _ => .ok ({ s with consultas := s.consultas ++ [consulta] }, consulta)

/-- The field-merge loop of `atualizar_consulta`. -/
def applyConsultaUpdate (c : ConsultaPrenatal) (d : ConsultaPrenatalUpdate) :
    ConsultaPrenatal :=
  { c with
    data_consulta := d.data_consulta.getD c.data_consulta
    idade_gestacional := d.idade_gestacional.getD c.idade_gestacional
    peso := d.peso.getD c.peso
    tensao_arterial := d.tensao_arterial.getD c.tensao_arterial
    observacoes := match d.observacoes with
      | some o => some o
      | none => c.observacoes
    id_profissional := d.id_profissional.getD c.id_profissional }

/-- `PATCH /consultas/(consulta_id)` (`atualizar_consulta`): 404 if absent;
when `id_profissional` is supplied it must resolve (404 otherwise); then
merge and commit. -/
def atualizar_consulta (consulta_id : Nat) (dados : ConsultaPrenatalUpdate) (s : Store) :
    Handler ConsultaPrenatal :=
  match session_get_consulta s consulta_id with
  | none => .error ⟨404, "Consulta pré-natal não encontrada"⟩
  | some consulta =>
    let profOk : Bool := match dados.id_profissional with
      | some pid => (session_get_profissional s pid).isSome
      | none => true
    if profOk then
      let updated := applyConsultaUpdate consulta dados
      .ok ({ s with consultas :=
              s.consultas.map (fun c => if c.id_consulta == consulta_id then updated else c) },
           updated)
    else .error ⟨404, "Profissional de saúde não encontrado"⟩

/-- `DELETE /consultas/(consulta_id)` (`deletar_consulta`): unconditional
once found. -/
def deletar_consulta (consulta_id : Nat) (s : Store) : Handler String :=
  match session_get_consulta s consulta_id with
  | none => .error ⟨404, "Consulta pré-natal não encontrada"⟩
  | some _ =>
    .ok ({ s with consultas := s.consultas.filter (fun c => !(c.id_consulta == consulta_id)) },
         "Consulta pré-natal removida com sucesso")

/-- `POST /exames` (`criar_exame`): 404 when the referenced gestante does
not exist. -/
def criar_exame (exame : Exame) (s : Store) : Handler Exame :=
  match session_get_gestante s exame.id_gestante with
  | none => .error ⟨404, "Gestante não encontrada"⟩
  | some _ => .ok ({ s with exames := s.exames ++ [exame] }, exame)

/-- The field-merge loop of `atualizar_exame`. -/
def applyExameUpdate (e : Exame) (d : ExameUpdate) : Exame :=
  { e with
    tipo_exame := d.tipo_exame.getD e.tipo_exame
    data_exame := d.data_exame.getD e.data_exame
    resultado := match d.resultado with
      | some r => some r
      | none => e.resultado }

/-- `PATCH /exames/(exame_id)` (`atualizar_exame`): 404 if absent, else
merge and commit (no validation: the patch exposes no references). -/
def atualizar_exame (exame_id : Nat) (dados : ExameUpdate) (s : Store) : Handler Exame :=
  match session_get_exame s exame_id with
  | none => .error ⟨404, "Exame não encontrado"⟩
  | some exame =>
    let updated := applyExameUpdate exame dados
    .ok ({ s with exames :=
            s.exames.map (fun e => if e.id_exame == exame_id then updated else e) },
         updated)

/-- `DELETE /exames/(exame_id)` (`deletar_exame`): unconditional once found. -/
def deletar_exame (exame_id : Nat) (s : Store) : Handler String :=
  match session_get_exame s exame_id with
  | none => .error ⟨404, "Exame não encontrado"⟩
  | some _ =>
    .ok ({ s with exames := s.exames.filter (fun e => !(e.id_exame == exame_id)) },
         "Exame removido com sucesso")

/-- `POST /partos` (`criar_parto`): 404 when the gestante does not exist,
then 400 when she already has a parto, then 404 when the profissional does
not exist; all three checks precede the insert. -/
def criar_parto (parto : Parto) (s : Store) : Handler Parto :=
  match session_get_gestante s parto.id_gestante with
  | none => .error ⟨404, "Gestante não encontrada"⟩
  | some _ =>
    match s.partos.find? (fun p => p.id_gestante == parto.id_gestante) with
    | some _ => .error ⟨400, "Gestante já tem um parto registrado"⟩
    | none =>
      match session_get_profissional s parto.id_profissional with
      | none => .error ⟨404, "Profissional de saúde não encontrado"⟩
      | some _ => .ok ({ s with partos := s.partos ++ [parto] }, parto)

/-- The field-merge loop of `atualizar_parto`. -/
def applyPartoUpdate (p : Parto) (d : PartoUpdate) : Parto :=
  { p with
    data_parto := d.data_parto.getD p.data_parto
    tipo_parto := d.tipo_parto.getD p.tipo_parto
    complicacoes := match d.complicacoes with
      | some c => some c
      | none => p.complicacoes
    peso_bebe := d.peso_bebe.getD p.peso_bebe
    sexo_bebe := d.sexo_bebe.getD p.sexo_bebe
    id_profissional := d.id_profissional.getD p.id_profissional }

/-- `PATCH /partos/(parto_id)` (`atualizar_parto`): 404 if absent; when
`id_profissional` is supplied it must resolve (404 otherwise); then merge
and commit. -/
def atualizar_parto (parto_id : Nat) (dados : PartoUpdate) (s : Store) : Handler Parto :=
  match session_get_parto s parto_id with
  | none => .error ⟨404, "Parto não encontrado"⟩
  | some parto =>
    let profOk : Bool := match dados.id_profissional with
      | some pid => (session_get_profissional s pid).isSome
      | none => true
    if profOk then
      let updated := applyPartoUpdate parto dados
      .ok ({ s with partos :=
              s.partos.map (fun p => if p.id_parto == parto_id then updated else p) },
           updated)
    else .error ⟨404, "Profissional de saúde não encontrado"⟩

/-- `DELETE /partos/(parto_id)` (`deletar_parto`): unconditional once found. -/
def deletar_parto (parto_id : Nat) (s : Store) : Handler String :=
  match session_get_parto s parto_id with
  | none => .error ⟨404, "Parto não encontrado"⟩
  | some _ =>
    .ok ({ s with partos := s.partos.filter (fun p => !(p.id_parto == parto_id)) },
         "Parto removido com sucesso")

/-- HTTP status observed by a client of a POST endpoint: the decorator
`status_code=201` applies on normal return, the exception's code otherwise. -/
def postStatus {α : Type} (r : Handler α) : Nat :=
  match r with
  | .ok _ => 201
  | .error e => e.status_code

/-- Status of `POST /gestantes`. -/
def postGestantesStatus (g : Gestante) (s : Store) : Nat := postStatus (criar_gestante g s)

/-- Status of `POST /consultas`. -/
def postConsultasStatus (c : ConsultaPrenatal) (s : Store) : Nat :=
  postStatus (criar_consulta c s)

/-- Every parent-reference column of every stored row resolves to an
existing row of the referenced table. -/
def refsOK (s : Store) : Bool :=
  s.consultas.all (fun c =>
      (session_get_gestante s c.id_gestante).isSome &&
      (session_get_profissional s c.id_profissional).isSome) &&
  s.exames.all (fun e => (session_get_gestante s e.id_gestante).isSome) &&
  s.partos.all (fun p =>
      (session_get_gestante s p.id_gestante).isSome &&
      (session_get_profissional s p.id_profissional).isSome)

/-! ### Helper lemmas about list search and keyed updates -/

theorem find_append_of_none {α : Type} {p : α → Bool} {l1 : List α} (l2 : List α)
    (h : l1.find? p = none) : (l1 ++ l2).find? p = l2.find? p := by
  rw [List.find?_append, h, Option.none_or]

theorem find_append_isSome_left {α : Type} {p : α → Bool} {l1 : List α} (l2 : List α)
    (h : (l1.find? p).isSome = true) : ((l1 ++ l2).find? p).isSome = true := by
  rw [List.find?_append]
  cases hf : l1.find? p with
  | none => rw [hf] at h; simp at h
  | some a => simp [Option.or]

theorem all_map_update {α : Type} {p q : α → Bool} {u : α} {l : List α}
    (hl : l.all p = true) (hu : p u = true) :
    (l.map (fun x => if q x then u else x)).all p = true := by
  rw [List.all_eq_true] at *
  intro y hy
  rw [List.mem_map] at hy
  obtain ⟨x, hx, rfl⟩ := hy
  by_cases h : q x = true
  · simp only [h, if_true]
    exact hu
  · simp only [h, if_false, Bool.false_eq_true, ite_false]
    exact hl x hx

theorem find_isSome_map_congr {α : Type} {f : α → α} {p : α → Bool} {l : List α}
    (h : ∀ x ∈ l, p (f x) = p x) :
    ((l.map f).find? p).isSome = (l.find? p).isSome := by
  induction l with
  | nil => rfl
  | cons a t ih =>
    have ha := h a (by simp)
    cases hpa : p a with
    | true =>
      rw [List.map_cons, List.find?_cons_of_pos _ (ha.trans hpa),
        List.find?_cons_of_pos _ hpa]
      rfl
    | false =>
      rw [List.map_cons, List.find?_cons_of_neg _ (by simp [ha, hpa]),
        List.find?_cons_of_neg _ (by simp [hpa])]
      exact ih (fun x hx => h x (by simp [hx]))

theorem map_update_self {α : Type} (key : α → Nat) {k : Nat} {g : α} {l : List α}
    (hone : ∀ x ∈ l, key x = k → x = g) :
    l.map (fun x => if key x == k then g else x) = l := by
  induction l with
  | nil => rfl
  | cons a t ih =>
    rw [List.map_cons, ih (fun x hx => hone x (by simp [hx]))]
    by_cases h : key a = k
    · rw [hone a (by simp) h]
      simp
    · simp [h]

theorem find_filter_not_self {α : Type} (q : α → Bool) (l : List α) :
    (l.filter (fun x => !q x)).find? q = none := by
  rw [List.find?_eq_none]
  intro x hx
  rw [List.mem_filter] at hx
  simp only [Bool.not_eq_true'] at hx
  simp [hx.2]

/-! ### Example rows used as concrete witnesses -/

def gA : Gestante := ⟨1, "Ana", 700101, "000111222LA041", "923000001", "Rua A",
  GrupoSanguineo.A_POSITIVO, EstadoCivil.SOLTEIRO, 10⟩

def gB : Gestante := ⟨2, "Bia", 800202, "000111222LA041", "923000002", "Rua B",
  GrupoSanguineo.O_POSITIVO, EstadoCivil.CASADO, 20⟩

def profA : ProfissionalSaude := ⟨11, "Dr. Alda", "Obstetrícia", "924000001", "alda@hosp.ao"⟩

def profB : ProfissionalSaude := ⟨12, "Dr. Beto", "Enfermagem", "924000002", "alda@hosp.ao"⟩

/-! ### C1 -/

/-- C1: for the designated unique fields (`Gestante.bi`,
`ProfissionalSaude.email`), creating a record whose unique-field value is
already held by a stored record yields the 400 Conflict error (and, the
handler erroring, no mutation happens); consequently two creates with equal
unique-field values yield exactly one success and one Conflict. -/
theorem unique_create_conflict :
    (∀ (s : Store) (g : Gestante), (∃ x ∈ s.gestantes, x.bi = g.bi) →
        criar_gestante g s = .error ⟨400, "BI já cadastrado para outra gestante"⟩) ∧
    (∀ (s s1 : Store) (g1 g2 : Gestante), g1.bi = g2.bi →
        criar_gestante g1 s = .ok (s1, g1) →
        criar_gestante g2 s1 = .error ⟨400, "BI já cadastrado para outra gestante"⟩) ∧
    (∀ (s : Store) (p : ProfissionalSaude), (∃ x ∈ s.profissionais, x.email = p.email) →
        criar_profissional p s = .error ⟨400, "Email já cadastrado para outro profissional"⟩) ∧
    (∀ (s s1 : Store) (p1 p2 : ProfissionalSaude), p1.email = p2.email →
        criar_profissional p1 s = .ok (s1, p1) →
        criar_profissional p2 s1 = .error ⟨400, "Email já cadastrado para outro profissional"⟩) := by
  refine ⟨?_, ?_, ?_, ?_⟩
  · intro s g h
    unfold criar_gestante
    cases hf : s.gestantes.find? (fun x => x.bi == g.bi) with
    | some _ => rfl
    | none =>
      exfalso
      rw [List.find?_eq_none] at hf
      obtain ⟨x, hx, he⟩ := h
      exact hf x hx (by simp [he])
  · intro s s1 g1 g2 heq hok
    unfold criar_gestante at hok ⊢
    cases hf : s.gestantes.find? (fun x => x.bi == g1.bi) with
    | some _ => rw [hf] at hok; exact absurd hok (by simp)
    | none =>
      rw [hf] at hok
      injection hok with hok
      injection hok with hs1 _
      rw [← hs1]
      have hf2 : s.gestantes.find? (fun x => x.bi == g2.bi) = none := by
        rw [← heq]; exact hf
      rw [show (({ s with gestantes := s.gestantes ++ [g1] } : Store).gestantes) =
            s.gestantes ++ [g1] from rfl]
      rw [find_append_of_none _ hf2, List.find?_cons_of_pos _ (by simp [heq])]
  · intro s p h
    unfold criar_profissional
    cases hf : s.profissionais.find? (fun x => x.email == p.email) with
    | some _ => rfl
    | none =>
      exfalso
      rw [List.find?_eq_none] at hf
      obtain ⟨x, hx, he⟩ := h
      exact hf x hx (by simp [he])
  · intro s s1 p1 p2 heq hok
    unfold criar_profissional at hok ⊢
    cases hf : s.profissionais.find? (fun x => x.email == p1.email) with
    | some _ => rw [hf] at hok; exact absurd hok (by simp)
    | none =>
      rw [hf] at hok
      injection hok with hok
      injection hok with hs1 _
      rw [← hs1]
      have hf2 : s.profissionais.find? (fun x => x.email == p2.email) = none := by
        rw [← heq]; exact hf
      rw [show (({ s with profissionais := s.profissionais ++ [p1] } : Store).profissionais) =
            s.profissionais ++ [p1] from rfl]
      rw [find_append_of_none _ hf2, List.find?_cons_of_pos _ (by simp [heq])]

/-- Witness for C1 at concrete rows: the duplicate-`bi` create after a
successful create is rejected with 400. -/
theorem unique_create_conflict_witness :
    criar_gestante gB ⟨[gA], [], [], [], []⟩ =
      .error ⟨400, "BI já cadastrado para outra gestante"⟩ :=
  unique_create_conflict.2.1 Store.empty ⟨[gA], [], [], [], []⟩ gA gB rfl rfl

/-! ### C2 -/

/-- C2: when the referenced gestante exists and some stored parto already
references the same `id_gestante`, creating another parto is rejected with
the 400 Conflict error; the handler erroring, the store (and in particular
the first parto) is untouched. -/
theorem second_parto_conflict (s : Store) (p0 p : Parto)
    (hg : (session_get_gestante s p.id_gestante).isSome = true)
    (hp0 : p0 ∈ s.partos) (heq : p0.id_gestante = p.id_gestante) :
    criar_parto p s = .error ⟨400, "Gestante já tem um parto registrado"⟩ := by
  unfold criar_parto
  cases hgf : session_get_gestante s p.id_gestante with
  | none => rw [hgf] at hg; simp at hg
  | some _ =>
    cases hf : s.partos.find? (fun x => x.id_gestante == p.id_gestante) with
    | some _ => rfl
    | none =>
      exfalso
      rw [List.find?_eq_none] at hf
      exact hf p0 hp0 (by simp [heq])

def pt0 : Parto := ⟨31, 100, TipoParto.NORMAL, none, 3, SexoBebe.FEMININO, 1, 11⟩

def pt1 : Parto := ⟨32, 101, TipoParto.CESARIA, none, 3, SexoBebe.MASCULINO, 1, 11⟩

def sParto : Store := ⟨[gA], [profA], [], [], [pt0]⟩

/-- Witness for C2: a second parto for gestante 1 is rejected with 400. -/
theorem second_parto_conflict_witness :
    criar_parto pt1 sParto = .error ⟨400, "Gestante já tem um parto registrado"⟩ :=
  second_parto_conflict sParto pt0 pt1 rfl (by simp [sParto]) rfl

/-! ### C3 -/

/-- C3 (amended): creating a `ConsultaPrenatal`, `Exame` or `Parto` whose
referenced parent does not exist yields a 404 NotFound error (thus nothing
is persisted) — except that in `criar_parto` the duplicate-parto Conflict
check precedes the profissional check, so a missing profissional is only
reported when the gestante has no parto yet. -/
theorem missing_parent_not_found :
    (∀ (s : Store) (c : ConsultaPrenatal),
        session_get_gestante s c.id_gestante = none →
        criar_consulta c s = .error ⟨404, "Gestante não encontrada"⟩) ∧
    (∀ (s : Store) (c : ConsultaPrenatal),
        session_get_profissional s c.id_profissional = none →
        ∃ e : HTTPException, criar_consulta c s = .error e ∧ e.status_code = 404) ∧
    (∀ (s : Store) (x : Exame),
        session_get_gestante s x.id_gestante = none →
        criar_exame x s = .error ⟨404, "Gestante não encontrada"⟩) ∧
    (∀ (s : Store) (p : Parto),
        session_get_gestante s p.id_gestante = none →
        criar_parto p s = .error ⟨404, "Gestante não encontrada"⟩) ∧
    (∀ (s : Store) (p : Parto),
        session_get_profissional s p.id_profissional = none →
        s.partos.find? (fun x => x.id_gestante == p.id_gestante) = none →
        ∃ e : HTTPException, criar_parto p s = .error e ∧ e.status_code = 404) := by
  refine ⟨?_, ?_, ?_, ?_, ?_⟩
  · intro s c hg
    unfold criar_consulta
    rw [hg]
  · intro s c hp
    unfold criar_consulta
    cases hg : session_get_gestante s c.id_gestante with
    | none => exact ⟨⟨404, "Gestante não encontrada"⟩, rfl, rfl⟩
    | some _ =>
      rw [hp]
      exact ⟨⟨404, "Profissional de saúde não encontrado"⟩, rfl, rfl⟩
  · intro s x hg
    unfold criar_exame
    rw [hg]
  · intro s p hg
    unfold criar_parto
    rw [hg]
  · intro s p hp hf
    unfold criar_parto
    cases hg : session_get_gestante s p.id_gestante with
    | none => exact ⟨⟨404, "Gestante não encontrada"⟩, rfl, rfl⟩
    | some _ =>
      rw [hf, hp]
      exact ⟨⟨404, "Profissional de saúde não encontrado"⟩, rfl, rfl⟩

def cX : ConsultaPrenatal := ⟨21, 50, 20, 60, "120/80", none, 1, 11⟩

/-- Witness for C3: creating a consulta in the empty store (gestante 1
absent) yields 404. -/
theorem missing_parent_not_found_witness :
    criar_consulta cX Store.empty = .error ⟨404, "Gestante não encontrada"⟩ :=
  missing_parent_not_found.1 Store.empty cX rfl

def sC3 : Store := ⟨[gA], [], [], [], [pt0]⟩

/-- Counterexample to C3 as stated: in `sC3` profissional 11 does not
exist, yet `criar_parto` reports the duplicate-parto 400 Conflict, not a
404 NotFound, because gestante 1 already has a parto. -/
theorem missing_parent_not_found_counterexample :
    session_get_profissional sC3 pt1.id_profissional = none ∧
    criar_parto pt1 sC3 = .error ⟨400, "Gestante já tem um parto registrado"⟩ :=
  ⟨rfl, rfl⟩

/-! ### C4 -/

def profEmpty : ProfissionalSaude := ⟨12, "Dr. Beto", "Enfermagem", "924000002", ""⟩

def patchEmptyEmail : ProfissionalSaudeUpdate := ⟨none, none, none, some ""⟩

def s4 : Store := ⟨[], [profA, profEmpty], [], [], []⟩

/-- Counterexample to C4 as stated: the email `""` is present in the patch
and already held by the distinct professional 12, yet patching professional
11 does NOT yield the 400 Conflict the validation layer produces for
uniqueness violations: the guard
`if dados.email and dados.email != profissional.email` treats the empty
string as falsy and skips the application-level check, and the duplicate is
then caught only by the database's unique index at commit, which fails the
request with a generic 500 `IntegrityError` instead. -/
theorem update_email_conflict_counterexample :
    profEmpty ∈ s4.profissionais ∧
    profEmpty.email = "" ∧
    profEmpty.id_profissional ≠ 11 ∧
    atualizar_profissional 11 patchEmptyEmail s4 =
      .error ⟨500, "IntegrityError: UNIQUE constraint failed: profissionalsaude.email"⟩ ∧
    (∀ e : HTTPException, atualizar_profissional 11 patchEmptyEmail s4 = .error e →
      e.status_code ≠ 400) := by
  refine ⟨by simp [s4], rfl, by decide, rfl, ?_⟩
  intro e he
  have h0 : atualizar_profissional 11 patchEmptyEmail s4 =
      .error ⟨500, "IntegrityError: UNIQUE constraint failed: profissionalsaude.email"⟩ := by rfl
  rw [he] at h0
  simp only [Except.error.injEq] at h0
  rw [h0]
  decide

/-- C4 (amended): patching a professional's email to a **non-empty** value
held by another stored professional yields the 400 Conflict error; patching
it to the empty string held by a different professional bypasses the
application-level check and fails at commit with the database's
unique-constraint error (HTTP 500) — in both cases the record is unchanged;
patching the email to the record's own current value, or omitting it, never
conflicts (the application-level check requires the patch email to be truthy
— present and non-empty — and different from the stored value; the
successful cases assume the store's emails are unique outside the patched
row, which the unique index guarantees). -/
theorem update_email_conflict (s : Store) (pid : Nat) (dados : ProfissionalSaudeUpdate)
    (cur : ProfissionalSaude) (hget : session_get_profissional s pid = some cur) :
    (∀ e : String, dados.email = some e → e ≠ "" → e ≠ cur.email →
        (∃ x ∈ s.profissionais, x.email = e) →
        atualizar_profissional pid dados s =
          .error ⟨400, "Email já cadastrado para outro profissional"⟩) ∧
    (dados.email = some "" →
        (∃ x ∈ s.profissionais, x.email = "" ∧ x.id_profissional ≠ pid) →
        atualizar_profissional pid dados s =
          .error ⟨500, "IntegrityError: UNIQUE constraint failed: profissionalsaude.email"⟩) ∧
    (dados.email = some cur.email →
        (∀ x ∈ s.profissionais, x.email = cur.email → x.id_profissional = pid) →
        ∃ r, atualizar_profissional pid dados s = .ok r) ∧
    (dados.email = none →
        (∀ x ∈ s.profissionais, x.email = cur.email → x.id_profissional = pid) →
        ∃ r, atualizar_profissional pid dados s = .ok r) := by
  refine ⟨?_, ?_, ?_, ?_⟩
  · intro e he hne hnecur hex
    have hchk : emailCheckNeeded dados cur = true := by
      unfold emailCheckNeeded
      rw [he]
      simp [hne, hnecur]
    have hfind : (s.profissionais.find? (fun p => some p.email == dados.email)).isSome = true := by
      rw [List.find?_isSome]
      obtain ⟨x, hx, hxe⟩ := hex
      exact ⟨x, hx, by rw [he]; simp [hxe]⟩
    simp [atualizar_profissional, hget, hchk, hfind]
  · intro he hex
    have hchk : emailCheckNeeded dados cur = false := by
      unfold emailCheckNeeded
      rw [he]
      simp
    have hupd : (applyProfissionalUpdate cur dados).email = "" := by
      show dados.email.getD cur.email = ""
      rw [he]
      rfl
    have hcommit : (s.profissionais.find? (fun p =>
        p.email == (applyProfissionalUpdate cur dados).email &&
        !(p.id_profissional == pid))).isSome = true := by
      rw [List.find?_isSome]
      obtain ⟨x, hx, hxe, hxid⟩ := hex
      exact ⟨x, hx, by rw [hupd]; simp [hxe, hxid]⟩
    simp [atualizar_profissional, hget, hchk, hcommit]
  · intro he huniq
    have hchk : emailCheckNeeded dados cur = false := by
      unfold emailCheckNeeded
      rw [he]
      simp
    have hupd : (applyProfissionalUpdate cur dados).email = cur.email := by
      show dados.email.getD cur.email = cur.email
      rw [he]
      rfl
    have hcommit : s.profissionais.find? (fun p =>
        p.email == (applyProfissionalUpdate cur dados).email &&
        !(p.id_profissional == pid)) = none := by
      rw [List.find?_eq_none]
      intro x hx
      rw [hupd]
      by_cases hxe : x.email = cur.email
      · simp [huniq x hx hxe]
      · simp [hxe]
    simp only [atualizar_profissional, hget, hchk, Bool.false_and, Bool.false_eq_true,
      if_false, ite_false, hcommit, Option.isSome_none]
    exact ⟨_, rfl⟩
  · intro he huniq
    have hchk : emailCheckNeeded dados cur = false := by
      unfold emailCheckNeeded
      rw [he]
    have hupd : (applyProfissionalUpdate cur dados).email = cur.email := by
      show dados.email.getD cur.email = cur.email
      rw [he]
      rfl
    have hcommit : s.profissionais.find? (fun p =>
        p.email == (applyProfissionalUpdate cur dados).email &&
        !(p.id_profissional == pid)) = none := by
      rw [List.find?_eq_none]
      intro x hx
      rw [hupd]
      by_cases hxe : x.email = cur.email
      · simp [huniq x hx hxe]
      · simp [hxe]
    simp only [atualizar_profissional, hget, hchk, Bool.false_and, Bool.false_eq_true,
      if_false, ite_false, hcommit, Option.isSome_none]
    exact ⟨_, rfl⟩

def profC : ProfissionalSaude := ⟨13, "Dr. Caio", "Pediatria", "924000003", "caio@hosp.ao"⟩

def s4w : Store := ⟨[], [profA, profC], [], [], []⟩

def patchCaio : ProfissionalSaudeUpdate := ⟨none, none, none, some "caio@hosp.ao"⟩

/-- Witness for the amended C4: patching professional 11's email to the
non-empty address already held by professional 13 is rejected with 400. -/
theorem update_email_conflict_witness :
    atualizar_profissional 11 patchCaio s4w =
      .error ⟨400, "Email já cadastrado para outro profissional"⟩ :=
  (update_email_conflict s4w 11 patchCaio profA rfl).1 "caio@hosp.ao" rfl
    (by decide) (by decide) ⟨profC, by simp [s4w], rfl⟩

/-! ### C10 -/

/-- C10: the `GestanteUpdate` patch model exposes only `nome`, `telefone`,
`endereco`, `grupo_sanguineo` and `estado_civil`, so a gestante partial
update always leaves `bi`, `data_nascimento`, `id_gestante` and
`data_registo` unchanged, and `atualizar_gestante` can only fail with 404
(no uniqueness re-check exists on this path). -/
theorem gestante_update_immutable_fields :
    (∀ (s : Store) (gid : Nat) (d : GestanteUpdate) (g : Gestante),
        session_get_gestante s gid = some g →
        ∃ s', atualizar_gestante gid d s = .ok (s', applyGestanteUpdate g d) ∧
          (applyGestanteUpdate g d).bi = g.bi ∧
          (applyGestanteUpdate g d).data_nascimento = g.data_nascimento ∧
          (applyGestanteUpdate g d).id_gestante = g.id_gestante ∧
          (applyGestanteUpdate g d).data_registo = g.data_registo) ∧
    (∀ (s : Store) (gid : Nat) (d : GestanteUpdate) (e : HTTPException),
        atualizar_gestante gid d s = .error e → e.status_code = 404) := by
  constructor
  · intro s gid d g hget
    have hok : ∃ s', atualizar_gestante gid d s = .ok (s', applyGestanteUpdate g d) := by
      simp only [atualizar_gestante, hget]
      exact ⟨_, rfl⟩
    obtain ⟨s', hok⟩ := hok
    exact ⟨s', hok, rfl, rfl, rfl, rfl⟩
  · intro s gid d e herr
    unfold atualizar_gestante at herr
    cases hget : session_get_gestante s gid with
    | none =>
      rw [hget] at herr
      injection herr with h
      rw [← h]
    | some g =>
      rw [hget] at herr
      exact absurd herr (by simp)

def patchNome : GestanteUpdate := ⟨some "Ana Maria", none, none, none, none⟩

/-- Witness for C10 at a concrete store and patch. -/
theorem gestante_update_immutable_fields_witness :
    ∃ s', atualizar_gestante 1 patchNome ⟨[gA], [], [], [], []⟩ =
        .ok (s', applyGestanteUpdate gA patchNome) ∧
      (applyGestanteUpdate gA patchNome).bi = gA.bi ∧
      (applyGestanteUpdate gA patchNome).data_nascimento = gA.data_nascimento ∧
      (applyGestanteUpdate gA patchNome).id_gestante = gA.id_gestante ∧
      (applyGestanteUpdate gA patchNome).data_registo = gA.data_registo :=
  gestante_update_immutable_fields.1 ⟨[gA], [], [], [], []⟩ 1 patchNome gA rfl

/-! ### C5 -/

/-- C5: deleting an existing gestante with at least one consulta
referencing her yields the 400 Conflict error and she stays queryable;
deleting her when no consulta blocks succeeds and a subsequent fetch-by-id
yields 404. -/
theorem gestante_delete_guard :
    (∀ (s : Store) (gid : Nat) (g : Gestante),
        session_get_gestante s gid = some g →
        (∃ c ∈ s.consultas, c.id_gestante = gid) →
        deletar_gestante gid s =
          .error ⟨400, "Não é possível excluir gestante com consultas registradas"⟩ ∧
        buscar_gestante gid s = .ok g) ∧
    (∀ (s : Store) (gid : Nat) (g : Gestante),
        session_get_gestante s gid = some g →
        s.consultas.find? (fun c => c.id_gestante == gid) = none →
        ∃ s', deletar_gestante gid s = .ok (s', "Gestante removida com sucesso") ∧
          buscar_gestante gid s' = .error ⟨404, "Gestante não encontrada"⟩) := by
  constructor
  · intro s gid g hget hdep
    constructor
    · have hf : (s.consultas.find? (fun c => c.id_gestante == gid)).isSome = true := by
        rw [List.find?_isSome]
        obtain ⟨c, hc, he⟩ := hdep
        exact ⟨c, hc, by simp [he]⟩
      rw [Option.isSome_iff_exists] at hf
      obtain ⟨c, hf⟩ := hf
      simp [deletar_gestante, hget, hf]
    · unfold buscar_gestante
      rw [hget]
  · intro s gid g hget hf
    refine ⟨{ s with gestantes := s.gestantes.filter (fun x => !(x.id_gestante == gid)) },
      ?_, ?_⟩
    · simp [deletar_gestante, hget, hf]
    · have hnone : session_get_gestante
          { s with gestantes := s.gestantes.filter (fun x => !(x.id_gestante == gid)) } gid =
            none := by
        unfold session_get_gestante
        exact find_filter_not_self _ _
      unfold buscar_gestante
      rw [hnone]

/-- Witness for C5: in a store holding only gestante 1 (no consultas) the
delete succeeds and the follow-up fetch yields 404. -/
theorem gestante_delete_guard_witness :
    ∃ s', deletar_gestante 1 ⟨[gA], [], [], [], []⟩ =
        .ok (s', "Gestante removida com sucesso") ∧
      buscar_gestante 1 s' = .error ⟨404, "Gestante não encontrada"⟩ :=
  gestante_delete_guard.2 ⟨[gA], [], [], [], []⟩ 1 gA rfl rfl

/-! ### C9 -/

/-- C9: the gestante delete guard consults only the `ConsultaPrenatal`
table (exames and partos never block), the profissional delete is blocked
by any referencing consulta or parto, and consulta, exame and parto delete
unconditionally once found. -/
theorem delete_guard_coverage :
    (∀ (s : Store) (gid : Nat) (g : Gestante),
        session_get_gestante s gid = some g →
        s.consultas.find? (fun c => c.id_gestante == gid) = none →
        ∃ s', deletar_gestante gid s = .ok (s', "Gestante removida com sucesso")) ∧
    (∀ (s : Store) (pid : Nat) (p : ProfissionalSaude),
        session_get_profissional s pid = some p →
        ((∃ c ∈ s.consultas, c.id_profissional = pid) ∨
          (∃ x ∈ s.partos, x.id_profissional = pid)) →
        deletar_profissional pid s =
          .error ⟨400, "Não é possível excluir profissional com consultas ou partos registrados"⟩) ∧
    (∀ (s : Store) (cid : Nat) (c : ConsultaPrenatal),
        session_get_consulta s cid = some c →
        ∃ s', deletar_consulta cid s = .ok (s', "Consulta pré-natal removida com sucesso")) ∧
    (∀ (s : Store) (eid : Nat) (x : Exame),
        session_get_exame s eid = some x →
        ∃ s', deletar_exame eid s = .ok (s', "Exame removido com sucesso")) ∧
    (∀ (s : Store) (pid : Nat) (p : Parto),
        session_get_parto s pid = some p →
        ∃ s', deletar_parto pid s = .ok (s', "Parto removido com sucesso")) := by
  refine ⟨?_, ?_, ?_, ?_, ?_⟩
  · intro s gid g hget hf
    simp only [deletar_gestante, hget, hf]
    exact ⟨_, rfl⟩
  · intro s pid p hget hdep
    have hcond : ((s.consultas.find? (fun c => c.id_profissional == pid)).isSome ||
        (s.partos.find? (fun x => x.id_profissional == pid)).isSome) = true := by
      rcases hdep with ⟨c, hc, he⟩ | ⟨x, hx, he⟩
      · refine Bool.or_eq_true_iff.mpr (Or.inl ?_)
        rw [List.find?_isSome]
        exact ⟨c, hc, by simp [he]⟩
      · refine Bool.or_eq_true_iff.mpr (Or.inr ?_)
        rw [List.find?_isSome]
        exact ⟨x, hx, by simp [he]⟩
    simp [deletar_profissional, hget, hcond]
  · intro s cid c hget
    simp only [deletar_consulta, hget]
    exact ⟨_, rfl⟩
  · intro s eid x hget
    simp only [deletar_exame, hget]
    exact ⟨_, rfl⟩
  · intro s pid p hget
    simp only [deletar_parto, hget]
    exact ⟨_, rfl⟩

def ex0 : Exame := ⟨41, "Ecografia", 60, none, 1⟩

/-- Witness for C9: gestante 1 is referenced by an exame and a parto but by
no consulta, and her delete succeeds — the guard ignores those tables. -/
theorem delete_guard_coverage_witness :
    ∃ s', deletar_gestante 1 ⟨[gA], [], [], [ex0], [pt0]⟩ =
      .ok (s', "Gestante removida com sucesso") :=
  delete_guard_coverage.1 ⟨[gA], [], [], [ex0], [pt0]⟩ 1 gA rfl rfl

/-! ### C6 -/

def emptyGestantePatch : GestanteUpdate := ⟨none, none, none, none, none⟩

def emptyConsultaPatch : ConsultaPrenatalUpdate := ⟨none, none, none, none, none, none⟩

/-- C6: a partial update overwrites exactly the supplied fields: every
omitted field — the identifier and creation timestamp are not even
user-settable — keeps its prior value, and the empty patch returns the
record identical to before and leaves the store unchanged (the store
identity uses the primary-key uniqueness the database enforces). -/
theorem partial_update_frame :
    (∀ (s : Store) (gid : Nat) (d : GestanteUpdate) (g : Gestante),
        session_get_gestante s gid = some g →
        ∃ s', atualizar_gestante gid d s = .ok (s', applyGestanteUpdate g d) ∧
          (applyGestanteUpdate g d).id_gestante = g.id_gestante ∧
          (applyGestanteUpdate g d).data_registo = g.data_registo ∧
          (d.nome = none → (applyGestanteUpdate g d).nome = g.nome) ∧
          (d.telefone = none → (applyGestanteUpdate g d).telefone = g.telefone) ∧
          (d.endereco = none → (applyGestanteUpdate g d).endereco = g.endereco) ∧
          (d.grupo_sanguineo = none →
            (applyGestanteUpdate g d).grupo_sanguineo = g.grupo_sanguineo) ∧
          (d.estado_civil = none →
            (applyGestanteUpdate g d).estado_civil = g.estado_civil)) ∧
    (∀ (s : Store) (gid : Nat) (g : Gestante),
        session_get_gestante s gid = some g →
        (s.gestantes.map Gestante.id_gestante).Nodup →
        atualizar_gestante gid emptyGestantePatch s = .ok (s, g)) ∧
    (∀ (s : Store) (cid : Nat) (d : ConsultaPrenatalUpdate) (c : ConsultaPrenatal),
        session_get_consulta s cid = some c →
        (∀ pid, d.id_profissional = some pid →
          (session_get_profissional s pid).isSome = true) →
        ∃ s', atualizar_consulta cid d s = .ok (s', applyConsultaUpdate c d) ∧
          (applyConsultaUpdate c d).id_consulta = c.id_consulta ∧
          (applyConsultaUpdate c d).id_gestante = c.id_gestante ∧
          (d.data_consulta = none →
            (applyConsultaUpdate c d).data_consulta = c.data_consulta) ∧
          (d.idade_gestacional = none →
            (applyConsultaUpdate c d).idade_gestacional = c.idade_gestacional) ∧
          (d.peso = none → (applyConsultaUpdate c d).peso = c.peso) ∧
          (d.tensao_arterial = none →
            (applyConsultaUpdate c d).tensao_arterial = c.tensao_arterial) ∧
          (d.observacoes = none → (applyConsultaUpdate c d).observacoes = c.observacoes) ∧
          (d.id_profissional = none →
            (applyConsultaUpdate c d).id_profissional = c.id_profissional)) ∧
    (∀ (s : Store) (cid : Nat) (c : ConsultaPrenatal),
        session_get_consulta s cid = some c →
        (s.consultas.map ConsultaPrenatal.id_consulta).Nodup →
        atualizar_consulta cid emptyConsultaPatch s = .ok (s, c)) := by
  refine ⟨?_, ?_, ?_, ?_⟩
  · intro s gid d g hget
    have hok : ∃ s', atualizar_gestante gid d s = .ok (s', applyGestanteUpdate g d) := by
      simp only [atualizar_gestante, hget]
      exact ⟨_, rfl⟩
    obtain ⟨s', hok⟩ := hok
    refine ⟨s', hok, rfl, rfl, ?_, ?_, ?_, ?_, ?_⟩ <;> (intro h; simp [applyGestanteUpdate, h])
  · intro s gid g hget hnd
    have hgmem : g ∈ s.gestantes := List.mem_of_find?_eq_some hget
    have hgid : g.id_gestante = gid := by simpa using List.find?_some hget
    have hone : ∀ x ∈ s.gestantes, x.id_gestante = gid → x = g := by
      intro x hx hxk
      exact List.inj_on_of_nodup_map hnd hx hgmem (by rw [hxk, hgid])
    have happ : applyGestanteUpdate g emptyGestantePatch = g := rfl
    simp only [atualizar_gestante, hget, happ]
    rw [map_update_self Gestante.id_gestante hone]
  · intro s cid d c hget hprof
    have hok : ∃ s', atualizar_consulta cid d s = .ok (s', applyConsultaUpdate c d) := by
      cases hdp : d.id_profissional with
      | none =>
        simp only [atualizar_consulta, hget, hdp]
        exact ⟨_, rfl⟩
      | some pid =>
        simp only [atualizar_consulta, hget, hdp]
        rw [if_pos (hprof pid hdp)]
        exact ⟨_, rfl⟩
    obtain ⟨s', hok⟩ := hok
    refine ⟨s', hok, rfl, rfl, ?_, ?_, ?_, ?_, ?_, ?_⟩ <;>
      (intro h; simp [applyConsultaUpdate, h])
  · intro s cid c hget hnd
    have hcmem : c ∈ s.consultas := List.mem_of_find?_eq_some hget
    have hcid : c.id_consulta = cid := by simpa using List.find?_some hget
    have hone : ∀ x ∈ s.consultas, x.id_consulta = cid → x = c := by
      intro x hx hxk
      exact List.inj_on_of_nodup_map hnd hx hcmem (by rw [hxk, hcid])
    have happ : applyConsultaUpdate c emptyConsultaPatch = c := rfl
    simp only [atualizar_consulta, hget, happ]
    rw [map_update_self ConsultaPrenatal.id_consulta hone]
    rfl

/-- Witness for C6: the empty patch on gestante 1 returns her unchanged
and leaves the store equal to before. -/
theorem partial_update_frame_witness :
    atualizar_gestante 1 emptyGestantePatch ⟨[gA], [], [], [], []⟩ =
      .ok (⟨[gA], [], [], [], []⟩, gA) :=
  partial_update_frame.2.1 ⟨[gA], [], [], [], []⟩ 1 gA rfl (by simp)

/-! ### C7 -/

theorem all_pointwise_imp {α : Type} {p q : α → Bool} {l : List α} (hl : l.all p = true)
    (h : ∀ x ∈ l, p x = true → q x = true) : l.all q = true := by
  rw [List.all_eq_true] at *
  exact fun x hx => h x hx (hl x hx)

theorem get_isSome_after_keyed_update {α : Type} (key : α → Nat) {l : List α} {k : Nat}
    {u : α} (hu : key u = k) (j : Nat)
    (h : (l.find? (fun x => key x == j)).isSome = true) :
    ((l.map (fun x => if key x == k then u else x)).find?
      (fun x => key x == j)).isSome = true := by
  rw [find_isSome_map_congr]
  · exact h
  · intro x hx
    by_cases hxk : (key x == k) = true
    · have hxe : key x = k := by simpa using hxk
      simp only [hxk, if_true]
      rw [hu, ← hxe]
    · simp [hxk]

theorem refsOK_split {s : Store} (h : refsOK s = true) :
    s.consultas.all (fun c => (session_get_gestante s c.id_gestante).isSome &&
      (session_get_profissional s c.id_profissional).isSome) = true ∧
    s.exames.all (fun e => (session_get_gestante s e.id_gestante).isSome) = true ∧
    s.partos.all (fun p => (session_get_gestante s p.id_gestante).isSome &&
      (session_get_profissional s p.id_profissional).isSome) = true := by
  unfold refsOK at h
  rw [Bool.and_eq_true, Bool.and_eq_true] at h
  exact ⟨h.1.1, h.1.2, h.2⟩

theorem refsOK_build {s : Store}
    (h1 : s.consultas.all (fun c => (session_get_gestante s c.id_gestante).isSome &&
      (session_get_profissional s c.id_profissional).isSome) = true)
    (h2 : s.exames.all (fun e => (session_get_gestante s e.id_gestante).isSome) = true)
    (h3 : s.partos.all (fun p => (session_get_gestante s p.id_gestante).isSome &&
      (session_get_profissional s p.id_profissional).isSome) = true) :
    refsOK s = true := by
  unfold refsOK
  rw [Bool.and_eq_true, Bool.and_eq_true]
  exact ⟨⟨h1, h2⟩, h3⟩

/-- C7: referential integrity is preserved by every successful write
(create or partial update): starting from a store whose parent references
all resolve, the post-state of any successful create or patch again has
every parent reference resolving — creates check required references and
patches check a supplied `id_profissional` before committing. -/
theorem refs_ok_preserved (s : Store) (hs : refsOK s = true) :
    (∀ (g : Gestante) (s' : Store) (r : Gestante),
        criar_gestante g s = .ok (s', r) → refsOK s' = true) ∧
    (∀ (p : ProfissionalSaude) (s' : Store) (r : ProfissionalSaude),
        criar_profissional p s = .ok (s', r) → refsOK s' = true) ∧
    (∀ (c : ConsultaPrenatal) (s' : Store) (r : ConsultaPrenatal),
        criar_consulta c s = .ok (s', r) → refsOK s' = true) ∧
    (∀ (x : Exame) (s' : Store) (r : Exame),
        criar_exame x s = .ok (s', r) → refsOK s' = true) ∧
    (∀ (p : Parto) (s' : Store) (r : Parto),
        criar_parto p s = .ok (s', r) → refsOK s' = true) ∧
    (∀ (gid : Nat) (d : GestanteUpdate) (s' : Store) (r : Gestante),
        atualizar_gestante gid d s = .ok (s', r) → refsOK s' = true) ∧
    (∀ (pid : Nat) (d : ProfissionalSaudeUpdate) (s' : Store) (r : ProfissionalSaude),
        atualizar_profissional pid d s = .ok (s', r) → refsOK s' = true) ∧
    (∀ (cid : Nat) (d : ConsultaPrenatalUpdate) (s' : Store) (r : ConsultaPrenatal),
        atualizar_consulta cid d s = .ok (s', r) → refsOK s' = true) ∧
    (∀ (eid : Nat) (d : ExameUpdate) (s' : Store) (r : Exame),
        atualizar_exame eid d s = .ok (s', r) → refsOK s' = true) ∧
    (∀ (pid : Nat) (d : PartoUpdate) (s' : Store) (r : Parto),
        atualizar_parto pid d s = .ok (s', r) → refsOK s' = true) := by
  obtain ⟨hA, hB, hC⟩ := refsOK_split hs
  refine ⟨?_, ?_, ?_, ?_, ?_, ?_, ?_, ?_, ?_, ?_⟩
  · intro g s' r hok
    cases hf : s.gestantes.find? (fun x => x.bi == g.bi) with
    | some w => simp only [criar_gestante, hf] at hok; exact absurd hok (by simp)
    | none =>
      simp only [criar_gestante, hf] at hok
      injection hok with hok
      injection hok with hs' hr
      subst hs'
      apply refsOK_build
      · refine all_pointwise_imp hA ?_
        intro c hc h
        have h' := Bool.and_eq_true_iff.mp h
        exact Bool.and_eq_true_iff.mpr ⟨find_append_isSome_left _ h'.1, h'.2⟩
      · refine all_pointwise_imp hB ?_
        intro e he h
        exact find_append_isSome_left _ h
      · refine all_pointwise_imp hC ?_
        intro p hp h
        have h' := Bool.and_eq_true_iff.mp h
        exact Bool.and_eq_true_iff.mpr ⟨find_append_isSome_left _ h'.1, h'.2⟩
  · intro p s' r hok
    cases hf : s.profissionais.find? (fun x => x.email == p.email) with
    | some w => simp only [criar_profissional, hf] at hok; exact absurd hok (by simp)
    | none =>
      simp only [criar_profissional, hf] at hok
      injection hok with hok
      injection hok with hs' hr
      subst hs'
      apply refsOK_build
      · refine all_pointwise_imp hA ?_
        intro c hc h
        have h' := Bool.and_eq_true_iff.mp h
        exact Bool.and_eq_true_iff.mpr ⟨h'.1, find_append_isSome_left _ h'.2⟩
      · refine all_pointwise_imp hB ?_
        intro e he h
        exact h
      · refine all_pointwise_imp hC ?_
        intro q hq h
        have h' := Bool.and_eq_true_iff.mp h
        exact Bool.and_eq_true_iff.mpr ⟨h'.1, find_append_isSome_left _ h'.2⟩
  · intro c s' r hok
    cases hg : session_get_gestante s c.id_gestante with
    | none => simp only [criar_consulta, hg] at hok; exact absurd hok (by simp)
    | some g0 =>
      cases hp : session_get_profissional s c.id_profissional with
      | none => simp only [criar_consulta, hg, hp] at hok; exact absurd hok (by simp)
      | some p0 =>
        simp only [criar_consulta, hg, hp] at hok
        injection hok with hok
        injection hok with hs' hr
        subst hs'
        apply refsOK_build
        · show (s.consultas ++ [c]).all _ = true
          rw [List.all_append]
          refine Bool.and_eq_true_iff.mpr ⟨hA, ?_⟩
          show ([c].all (fun x => (session_get_gestante s x.id_gestante).isSome &&
            (session_get_profissional s x.id_profissional).isSome)) = true
          simp [hg, hp]
        · exact hB
        · exact hC
  · intro x s' r hok
    cases hg : session_get_gestante s x.id_gestante with
    | none => simp only [criar_exame, hg] at hok; exact absurd hok (by simp)
    | some g0 =>
      simp only [criar_exame, hg] at hok
      injection hok with hok
      injection hok with hs' hr
      subst hs'
      apply refsOK_build
      · exact hA
      · show (s.exames ++ [x]).all _ = true
        rw [List.all_append]
        refine Bool.and_eq_true_iff.mpr ⟨hB, ?_⟩
        show ([x].all (fun y => (session_get_gestante s y.id_gestante).isSome)) = true
        simp [hg]
      · exact hC
  · intro p s' r hok
    cases hg : session_get_gestante s p.id_gestante with
    | none => simp only [criar_parto, hg] at hok; exact absurd hok (by simp)
    | some g0 =>
      cases hdup : s.partos.find? (fun x => x.id_gestante == p.id_gestante) with
      | some w => simp only [criar_parto, hg, hdup] at hok; exact absurd hok (by simp)
      | none =>
        cases hp : session_get_profissional s p.id_profissional with
        | none => simp only [criar_parto, hg, hdup, hp] at hok; exact absurd hok (by simp)
        | some p0 =>
          simp only [criar_parto, hg, hdup, hp] at hok
          injection hok with hok
          injection hok with hs' hr
          subst hs'
          apply refsOK_build
          · exact hA
          · exact hB
          · show (s.partos ++ [p]).all _ = true
            rw [List.all_append]
            refine Bool.and_eq_true_iff.mpr ⟨hC, ?_⟩
            show ([p].all (fun x => (session_get_gestante s x.id_gestante).isSome &&
              (session_get_profissional s x.id_profissional).isSome)) = true
            simp [hg, hp]
  · intro gid d s' r hok
    cases hget : session_get_gestante s gid with
    | none => simp only [atualizar_gestante, hget] at hok; exact absurd hok (by simp)
    | some g =>
      simp only [atualizar_gestante, hget] at hok
      injection hok with hok
      injection hok with hs' hr
      subst hs'
      have hu : (applyGestanteUpdate g d).id_gestante = gid := by
        show g.id_gestante = gid
        simpa using List.find?_some hget
      apply refsOK_build
      · refine all_pointwise_imp hA ?_
        intro c hc h
        have h' := Bool.and_eq_true_iff.mp h
        exact Bool.and_eq_true_iff.mpr
          ⟨get_isSome_after_keyed_update Gestante.id_gestante hu _ h'.1, h'.2⟩
      · refine all_pointwise_imp hB ?_
        intro e he h
        exact get_isSome_after_keyed_update Gestante.id_gestante hu _ h
      · refine all_pointwise_imp hC ?_
        intro p hp h
        have h' := Bool.and_eq_true_iff.mp h
        exact Bool.and_eq_true_iff.mpr
          ⟨get_isSome_after_keyed_update Gestante.id_gestante hu _ h'.1, h'.2⟩
  · intro pid d s' r hok
    cases hget : session_get_profissional s pid with
    | none => simp only [atualizar_profissional, hget] at hok; exact absurd hok (by simp)
    | some cur =>
      simp only [atualizar_profissional, hget] at hok
      by_cases hcond : (emailCheckNeeded d cur &&
          (s.profissionais.find? (fun p => some p.email == d.email)).isSome) = true
      · rw [if_pos hcond] at hok
        exact absurd hok (by simp)
      · rw [if_neg hcond] at hok
        by_cases hcommit : ((s.profissionais.find? (fun p =>
            p.email == (applyProfissionalUpdate cur d).email &&
            !(p.id_profissional == pid))).isSome) = true
        · rw [if_pos hcommit] at hok
          exact absurd hok (by simp)
        · rw [if_neg hcommit] at hok
          injection hok with hok
          injection hok with hs' hr
          subst hs'
          have hu : (applyProfissionalUpdate cur d).id_profissional = pid := by
            show cur.id_profissional = pid
            simpa using List.find?_some hget
          apply refsOK_build
          · refine all_pointwise_imp hA ?_
            intro c hc h
            have h' := Bool.and_eq_true_iff.mp h
            exact Bool.and_eq_true_iff.mpr
              ⟨h'.1, get_isSome_after_keyed_update ProfissionalSaude.id_profissional hu _ h'.2⟩
          · refine all_pointwise_imp hB ?_
            intro e he h
            exact h
          · refine all_pointwise_imp hC ?_
            intro q hq h
            have h' := Bool.and_eq_true_iff.mp h
            exact Bool.and_eq_true_iff.mpr
              ⟨h'.1, get_isSome_after_keyed_update ProfissionalSaude.id_profissional hu _ h'.2⟩
  · intro cid d s' r hok
    cases hget : session_get_consulta s cid with
    | none => simp only [atualizar_consulta, hget] at hok; exact absurd hok (by simp)
    | some c =>
      simp only [atualizar_consulta, hget] at hok
      have hcmem : c ∈ s.consultas := List.mem_of_find?_eq_some hget
      have hcOK := Bool.and_eq_true_iff.mp (List.all_eq_true.mp hA c hcmem)
      cases hdp : d.id_profissional with
      | none =>
        simp only [hdp] at hok
        rw [if_pos trivial] at hok
        injection hok with hok
        injection hok with hs' hr
        subst hs'
        apply refsOK_build
        · refine all_map_update hA ?_
          refine Bool.and_eq_true_iff.mpr ⟨hcOK.1, ?_⟩
          show (session_get_profissional s (d.id_profissional.getD c.id_profissional)).isSome
            = true
          rw [hdp]
          exact hcOK.2
        · exact hB
        · exact hC
      | some pid =>
        simp only [hdp] at hok
        by_cases hp : (session_get_profissional s pid).isSome = true
        · rw [if_pos hp] at hok
          injection hok with hok
          injection hok with hs' hr
          subst hs'
          apply refsOK_build
          · refine all_map_update hA ?_
            refine Bool.and_eq_true_iff.mpr ⟨hcOK.1, ?_⟩
            show (session_get_profissional s (d.id_profissional.getD c.id_profissional)).isSome
              = true
            rw [hdp]
            exact hp
          · exact hB
          · exact hC
        · rw [if_neg hp] at hok
          exact absurd hok (by simp)
  · intro eid d s' r hok
    cases hget : session_get_exame s eid with
    | none => simp only [atualizar_exame, hget] at hok; exact absurd hok (by simp)
    | some x =>
      simp only [atualizar_exame, hget] at hok
      injection hok with hok
      injection hok with hs' hr
      subst hs'
      have hxmem : x ∈ s.exames := List.mem_of_find?_eq_some hget
      apply refsOK_build
      · exact hA
      · refine all_map_update hB ?_
        exact List.all_eq_true.mp hB x hxmem
      · exact hC
  · intro pid d s' r hok
    cases hget : session_get_parto s pid with
    | none => simp only [atualizar_parto, hget] at hok; exact absurd hok (by simp)
    | some p =>
      simp only [atualizar_parto, hget] at hok
      have hpmem : p ∈ s.partos := List.mem_of_find?_eq_some hget
      have hpOK := Bool.and_eq_true_iff.mp (List.all_eq_true.mp hC p hpmem)
      cases hdp : d.id_profissional with
      | none =>
        simp only [hdp] at hok
        rw [if_pos trivial] at hok
        injection hok with hok
        injection hok with hs' hr
        subst hs'
        apply refsOK_build
        · exact hA
        · exact hB
        · refine all_map_update hC ?_
          refine Bool.and_eq_true_iff.mpr ⟨hpOK.1, ?_⟩
          show (session_get_profissional s (d.id_profissional.getD p.id_profissional)).isSome
            = true
          rw [hdp]
          exact hpOK.2
      | some newPid =>
        simp only [hdp] at hok
        by_cases hp : (session_get_profissional s newPid).isSome = true
        · rw [if_pos hp] at hok
          injection hok with hok
          injection hok with hs' hr
          subst hs'
          apply refsOK_build
          · exact hA
          · exact hB
          · refine all_map_update hC ?_
            refine Bool.and_eq_true_iff.mpr ⟨hpOK.1, ?_⟩
            show (session_get_profissional s (d.id_profissional.getD p.id_profissional)).isSome
              = true
            rw [hdp]
            exact hp
        · rw [if_neg hp] at hok
          exact absurd hok (by simp)

/-- Witness for C7: from a concrete store satisfying `refsOK`, a concrete
successful consulta create again satisfies `refsOK`. -/
theorem refs_ok_preserved_witness :
    refsOK ⟨[gA], [profA], [], [], []⟩ = true ∧
    ∀ (s' : Store) (r : ConsultaPrenatal),
      criar_consulta cX ⟨[gA], [profA], [], [], []⟩ = .ok (s', r) → refsOK s' = true :=
  ⟨rfl, (refs_ok_preserved ⟨[gA], [profA], [], [], []⟩ rfl).2.2.1 cX⟩

/-! ### C8 -/

/-- C8 (amended): POST handlers return 201 on success and 400 on a
uniqueness violation, but a reference to a nonexistent parent is answered
with 404, not 400. -/
theorem post_status_codes :
    (∀ (s : Store) (g : Gestante),
        s.gestantes.find? (fun x => x.bi == g.bi) = none →
        postGestantesStatus g s = 201) ∧
    (∀ (s : Store) (g : Gestante),
        (s.gestantes.find? (fun x => x.bi == g.bi)).isSome = true →
        postGestantesStatus g s = 400) ∧
    (∀ (s : Store) (c : ConsultaPrenatal),
        (session_get_gestante s c.id_gestante).isSome = true →
        (session_get_profissional s c.id_profissional).isSome = true →
        postConsultasStatus c s = 201) ∧
    (∀ (s : Store) (c : ConsultaPrenatal),
        (session_get_gestante s c.id_gestante = none ∨
          session_get_profissional s c.id_profissional = none) →
        postConsultasStatus c s = 404) := by
  refine ⟨?_, ?_, ?_, ?_⟩
  · intro s g hf
    simp [postGestantesStatus, postStatus, criar_gestante, hf]
  · intro s g hf
    obtain ⟨w, hw⟩ := Option.isSome_iff_exists.mp hf
    simp [postGestantesStatus, postStatus, criar_gestante, hw]
  · intro s c hg hp
    obtain ⟨g0, hg0⟩ := Option.isSome_iff_exists.mp hg
    obtain ⟨p0, hp0⟩ := Option.isSome_iff_exists.mp hp
    simp [postConsultasStatus, postStatus, criar_consulta, hg0, hp0]
  · intro s c hmiss
    rcases hmiss with hg | hp
    · simp [postConsultasStatus, postStatus, criar_consulta, hg]
    · cases hg : session_get_gestante s c.id_gestante with
      | none => simp [postConsultasStatus, postStatus, criar_consulta, hg]
      | some g0 => simp [postConsultasStatus, postStatus, criar_consulta, hg, hp]

/-- Witness for the amended C8: a fresh gestante create returns 201. -/
theorem post_status_codes_witness :
    postGestantesStatus gA Store.empty = 201 :=
  post_status_codes.1 Store.empty gA rfl

/-- Counterexample to C8 as stated: a reference violation on
`POST /consultas` (gestante 1 absent from the empty store) produces
status 404, not the claimed 400. -/
theorem post_status_codes_counterexample :
    postConsultasStatus cX Store.empty = 404 ∧
    postConsultasStatus cX Store.empty ≠ 400 :=
  ⟨rfl, by decide⟩
